import Mathlib

/-!
Verification of the `pypexel` client library (a Python wrapper around the
Pexels stock-media REST API) against its natural-language specification.

The development is a shallow embedding of `src/pypexel/pypexel.py`,
`src/pypexel/utils.py` and `src/pypexel/models.py`:

* Python `dict` payloads are embedded as Lean structures whose fields are
  `Option`-valued, one field per key that the source code reads
  (`d.get(k, default)` becomes `field.getD default`); keys the code never
  reads cannot influence any result and are omitted.
* Python `int` becomes `Int` (arbitrary precision in both languages),
  `str` becomes `String`, `float` values that are only stored and compared
  (never computed with) become `Rat`.
* Raised exceptions become `Except` errors; the closed error taxonomy of
  the specification is the inductive `PexError`.
* The HTTP transport (the `requests` library) is an external collaborator:
  an operation takes a `transport : Request → TransportOutcome` argument
  describing the outcome of the single GET it performs, so a fact proved
  for every `transport` is in particular independent of the network.
-/

namespace Pypexel

/-- Decoded JSON payload returned by a successful transport call.  The
client code under verification never inspects this value before handing it
back (object mapping is modelled separately on typed field views), so a
small value type suffices. -/
inductive JsonVal where
  | null
  | str (s : String)
  deriving DecidableEq

/-- A query-parameter value: the source only ever places strings and
integers in the params dict. -/
inductive ParamValue where
  | str (s : String)
  | int (n : Int)
  deriving DecidableEq

/-- The request handed to the transport: endpoint path, base URL and the
cleaned query-parameter mapping (association list, keys written once). -/
structure Request where
  endpoint : String
  baseUrl : String
  params : List (String × ParamValue)
  deriving DecidableEq

/-- The error kinds the program can actually produce.  In the source,
validation failures are `ValueError` (here `invalidArgument` with the
source's message) and every transport-layer failure is a
`PexelsAPIError` whose message determines the kind.  The specification's
taxonomy also lists a DecodeError kind, but the program cannot produce
it: with the pinned `requests>=2.32.4` (setup.py), `response.json()`
raises `requests.exceptions.JSONDecodeError`, a subclass of
`RequestException`, which Python's in-order `except` matching sends to
the `except RequestException` clause at pypexel.py line 71 — the
`except ValueError` clause at line 73 is dead code — so a non-JSON body
surfaces as the same `"Request failed: ..."` (`transportFailure`)
message as a connection failure. -/
inductive PexError where
  | invalidArgument (msg : String)
  | rateLimited
  | unauthorized
  | httpError (status : Nat) (body : String)
  | transportFailure (msg : String)
  deriving DecidableEq

/-- Outcome of one HTTP GET at the transport boundary: either a response
carrying its status code, raw body text and the result of decoding the
body (`Except.error detail` when the body is not valid JSON, where
`detail` is the `str(e)` of the `requests.exceptions.JSONDecodeError`
that `response.json()` raises), or a connection-level failure (DNS,
timeout, reset — a `requests.exceptions.RequestException` raised by
`requests.get`, with `detail` its `str(e)`). -/
inductive TransportOutcome where
  | response (status : Nat) (body : String) (json : Except String JsonVal)
  | connectionFailure (detail : String)

/-- `requests`' `Response.raise_for_status` raises `HTTPError` exactly for
client-error (4xx) and server-error (5xx) status codes. -/
def raisesForStatus (status : Nat) : Bool :=
  400 ≤ status && status < 600

/-- The `try/except` body of `_make_request` (pypexel.py lines 59-74):
`raise_for_status` sends 4xx/5xx statuses to the `HTTPError` handler,
which distinguishes 429, 403 and everything else; every other raised
exception reaches the `except RequestException` clause at line 71 and is
re-raised as `PexelsAPIError("Request failed: " + str(e))`.  That clause
catches both connection-level failures and — because with the pinned
`requests>=2.32.4` the `JSONDecodeError` raised by `response.json()` is a
`RequestException` subclass and `except` clauses match in order — JSON
decode failures, so both collapse to the same `transportFailure` kind;
the `except ValueError` clause at line 73 is unreachable. -/
def classifyOutcome (o : TransportOutcome) : Except PexError JsonVal :=
  match o with
  | .connectionFailure detail =>
      .error (.transportFailure ("Request failed: " ++ detail))
  | .response status body json =>
      if raisesForStatus status then
        if status = 429 then .error .rateLimited
        else if status = 403 then .error .unauthorized
        else .error (.httpError status body)
      else
        match json with
        | .ok j => .ok j
        | .error detail =>
            .error (.transportFailure ("Request failed: " ++ detail))

/-- pypexel.py lines 55-57: `params = {k: v for k, v in params.items() if
v is not None}` — drop every key whose value is absent. -/
def cleanParams (params : List (String × Option ParamValue)) :
    List (String × ParamValue) :=
  params.filterMap fun kv => kv.2.map fun v => (kv.1, v)

def BASE_URL : String := "https://api.pexels.com/v1/"

def VIDEO_BASE_URL : String := "https://api.pexels.com/videos/"

/-- Run a facade operation: if request building (validation) failed, the
error propagates and the transport is never consulted; otherwise the one
GET is performed and its outcome classified. -/
def runOp (req : Except PexError Request)
    (transport : Request → TransportOutcome) : Except PexError JsonVal :=
  match req with
  | .error e => .error e
  | .ok r => classifyOutcome (transport r)

/-- The result is a validation failure of the InvalidArgument kind. -/
def isInvalidArgument (r : Except PexError JsonVal) : Prop :=
  ∃ msg, r = .error (.invalidArgument msg)

/-- Validation and request building of `search_photos`
(pypexel.py lines 108-127). -/
def search_photosRequest (query : String)
    (orientation size color locale : Option String)
    (page per_page : Int) : Except PexError Request :=
  if query = "" then .error (.invalidArgument "Query parameter is required")
  else if per_page > 80 then .error (.invalidArgument "per_page cannot exceed 80")
  else if page < 1 then .error (.invalidArgument "page must be >= 1")
  else .ok
    { endpoint := "search"
      baseUrl := BASE_URL
      params := cleanParams
        [("query", some (.str query)),
         ("orientation", orientation.map .str),
         ("size", size.map .str),
         ("color", color.map .str),
         ("locale", locale.map .str),
         ("page", some (.int page)),
         ("per_page", some (.int per_page))] }

/-- `search_photos` up to the transport boundary. -/
def search_photos (query : String)
    (orientation size color locale : Option String) (page per_page : Int)
    (transport : Request → TransportOutcome) : Except PexError JsonVal :=
  runOp (search_photosRequest query orientation size color locale page per_page)
    transport

/-- Validation and request building of `search_videos`
(pypexel.py lines 162-180). -/
def search_videosRequest (query : String)
    (orientation size locale : Option String)
    (page per_page : Int) : Except PexError Request :=
  if query = "" then .error (.invalidArgument "Query parameter is required")
  else if per_page > 80 then .error (.invalidArgument "per_page cannot exceed 80")
  else if page < 1 then .error (.invalidArgument "page must be >= 1")
  else .ok
    { endpoint := "search"
      baseUrl := VIDEO_BASE_URL
      params := cleanParams
        [("query", some (.str query)),
         ("orientation", orientation.map .str),
         ("size", size.map .str),
         ("locale", locale.map .str),
         ("page", some (.int page)),
         ("per_page", some (.int per_page))] }

/-- `search_videos` up to the transport boundary. -/
def search_videos (query : String) (orientation size locale : Option String)
    (page per_page : Int)
    (transport : Request → TransportOutcome) : Except PexError JsonVal :=
  runOp (search_videosRequest query orientation size locale page per_page)
    transport

/-- Validation and request building of `get_curated_photos`
(pypexel.py lines 255-266). -/
def get_curated_photosRequest (page per_page : Int) : Except PexError Request :=
  if per_page > 80 then .error (.invalidArgument "per_page cannot exceed 80")
  else if page < 1 then .error (.invalidArgument "page must be >= 1")
  else .ok
    { endpoint := "curated"
      baseUrl := BASE_URL
      params := cleanParams
        [("page", some (.int page)), ("per_page", some (.int per_page))] }

/-- `get_curated_photos` up to the transport boundary. -/
def get_curated_photos (page per_page : Int)
    (transport : Request → TransportOutcome) : Except PexError JsonVal :=
  runOp (get_curated_photosRequest page per_page) transport

/-- Validation and request building of `get_popular_videos`
(pypexel.py lines 303-318). -/
def get_popular_videosRequest
    (min_width min_height min_duration max_duration : Option Int)
    (page per_page : Int) : Except PexError Request :=
  if per_page > 80 then .error (.invalidArgument "per_page cannot exceed 80")
  else if page < 1 then .error (.invalidArgument "page must be >= 1")
  else .ok
    { endpoint := "popular"
      baseUrl := VIDEO_BASE_URL
      params := cleanParams
        [("min_width", min_width.map .int),
         ("min_height", min_height.map .int),
         ("min_duration", min_duration.map .int),
         ("max_duration", max_duration.map .int),
         ("page", some (.int page)),
         ("per_page", some (.int per_page))] }

/-- `get_popular_videos` up to the transport boundary. -/
def get_popular_videos
    (min_width min_height min_duration max_duration : Option Int)
    (page per_page : Int)
    (transport : Request → TransportOutcome) : Except PexError JsonVal :=
  runOp (get_popular_videosRequest min_width min_height min_duration
    max_duration page per_page) transport

/-- Validation and request building of `get_featured_collections`
(pypexel.py lines 347-358). -/
def get_featured_collectionsRequest (page per_page : Int) :
    Except PexError Request :=
  if per_page > 80 then .error (.invalidArgument "per_page cannot exceed 80")
  else if page < 1 then .error (.invalidArgument "page must be >= 1")
  else .ok
    { endpoint := "collections/featured"
      baseUrl := BASE_URL
      params := cleanParams
        [("page", some (.int page)), ("per_page", some (.int per_page))] }

/-- `get_featured_collections` up to the transport boundary. -/
def get_featured_collections (page per_page : Int)
    (transport : Request → TransportOutcome) : Except PexError JsonVal :=
  runOp (get_featured_collectionsRequest page per_page) transport

/-- Validation and request building of `get_my_collections`
(pypexel.py lines 387-398). -/
def get_my_collectionsRequest (page per_page : Int) : Except PexError Request :=
  if per_page > 80 then .error (.invalidArgument "per_page cannot exceed 80")
  else if page < 1 then .error (.invalidArgument "page must be >= 1")
  else .ok
    { endpoint := "collections"
      baseUrl := BASE_URL
      params := cleanParams
        [("page", some (.int page)), ("per_page", some (.int per_page))] }

/-- `get_my_collections` up to the transport boundary. -/
def get_my_collections (page per_page : Int)
    (transport : Request → TransportOutcome) : Except PexError JsonVal :=
  runOp (get_my_collectionsRequest page per_page) transport

/-- Validation and request building of `get_collection_media`
(pypexel.py lines 433-449): note that the `per_page` and `page` checks
come before the `media_type` membership check, exactly as in the source. -/
def get_collection_mediaRequest (collection_id : String)
    (media_type : Option String) (sort : Option String)
    (page per_page : Int) : Except PexError Request :=
  if per_page > 80 then .error (.invalidArgument "per_page cannot exceed 80")
  else if page < 1 then .error (.invalidArgument "page must be >= 1")
  else if !(([some "photos", some "videos", none] :
      List (Option String)).contains media_type) then
    .error (.invalidArgument "media_type must be either `photos` or `videos`")
  else .ok
    { endpoint := "collections/" ++ collection_id
      baseUrl := BASE_URL
      params := cleanParams
        [("type", media_type.map .str),
         ("sort", sort.map .str),
         ("page", some (.int page)),
         ("per_page", some (.int per_page))] }

/-- `get_collection_media` up to the transport boundary. -/
def get_collection_media (collection_id : String)
    (media_type : Option String) (sort : Option String) (page per_page : Int)
    (transport : Request → TransportOutcome) : Except PexError JsonVal :=
  runOp (get_collection_mediaRequest collection_id media_type sort page per_page)
    transport

/-! ## Typed domain entities (models.py) -/

/-- models.py `PhotoSRC`. -/
structure PhotoSRC where
  original : String
  large : String
  large2x : String
  medium : String
  small : String
  portrait : String
  landscape : String
  tiny : String
  deriving DecidableEq

/-- models.py `Photo`. -/
structure Photo where
  id : Int
  width : Int
  height : Int
  url : String
  photographer : String
  photographer_url : String
  photographer_id : Int
  avg_color : String
  src : PhotoSRC
  alt : String
  deriving DecidableEq

/-- models.py `VideoFile`; `fps` is a Python float that the library only
stores, so an exact `Rat` carries its value. -/
structure VideoFile where
  id : Int
  quality : String
  file_type : String
  width : Int
  height : Int
  fps : Rat
  link : String
  deriving DecidableEq

/-- models.py `VideoPicture`. -/
structure VideoPicture where
  id : Int
  picture : String
  nr : Int
  deriving DecidableEq

/-- models.py `User`. -/
structure User where
  id : Int
  name : String
  url : String
  deriving DecidableEq

/-- models.py `Video`.  (The dataclass annotates `video_pictures` with
`List[VideoFile]`, but the values actually stored by `parse_video` are
`VideoPicture` objects; the runtime type is used here.) -/
structure Video where
  id : Int
  width : Int
  height : Int
  url : String
  image : String
  duration : Int
  user : User
  video_files : List VideoFile
  video_pictures : List VideoPicture
  deriving DecidableEq

/-- models.py `Collection`; `private` is a Lean keyword, hence `private_`. -/
structure Collection where
  id : String
  title : String
  description : String
  private_ : Bool
  media_count : Int
  photos_count : Int
  videos_count : Int
  deriving DecidableEq

/-! ## Raw JSON payloads, restricted to the keys the parsers read

Each structure below embeds a JSON object as seen by a parse function of
utils.py: one `Option`-valued field per key the function reads, `none`
meaning the key is absent.  Keys the code never reads cannot influence the
result and are not represented. -/

/-- The `src` sub-object read by `parse_photo`. -/
structure SrcData where
  original : Option String
  large : Option String
  large2x : Option String
  medium : Option String
  small : Option String
  portrait : Option String
  landscape : Option String
  tiny : Option String

/-- The empty dict `{}` used as the default for a missing `src` key. -/
def SrcData.empty : SrcData :=
  ⟨none, none, none, none, none, none, none, none⟩

/-- A raw photo object as read by `parse_photo`. -/
structure PhotoData where
  id : Option Int
  width : Option Int
  height : Option Int
  url : Option String
  photographer : Option String
  photographer_url : Option String
  photographer_id : Option Int
  avg_color : Option String
  src : Option SrcData
  alt : Option String

/-- A raw photo object with every key absent. -/
def PhotoData.empty : PhotoData :=
  ⟨none, none, none, none, none, none, none, none, none, none⟩

/-- utils.py `parse_photo` (lines 14-40). -/
def parse_photo (photo_data : PhotoData) : Photo :=
  let src_data := photo_data.src.getD SrcData.empty
  let photo_src : PhotoSRC :=
    { original := src_data.original.getD ""
      large := src_data.large.getD ""
      large2x := src_data.large2x.getD ""
      medium := src_data.medium.getD ""
      small := src_data.small.getD ""
      portrait := src_data.portrait.getD ""
      landscape := src_data.landscape.getD ""
      tiny := src_data.tiny.getD "" }
  { id := photo_data.id.getD 0
    width := photo_data.width.getD 0
    height := photo_data.height.getD 0
    url := photo_data.url.getD ""
    photographer := photo_data.photographer.getD ""
    photographer_url := photo_data.photographer_url.getD ""
    photographer_id := photo_data.photographer_id.getD 0
    avg_color := photo_data.avg_color.getD ""
    src := photo_src
    alt := photo_data.alt.getD "" }

/-- The `user` sub-object read by `parse_video`. -/
structure UserData where
  id : Option Int
  name : Option String
  url : Option String

/-- The empty dict `{}` used as the default for a missing `user` key. -/
def UserData.empty : UserData := ⟨none, none, none⟩

/-- A raw element of the `video_files` array. -/
structure VideoFileData where
  id : Option Int
  quality : Option String
  file_type : Option String
  width : Option Int
  height : Option Int
  fps : Option Rat
  link : Option String

/-- A raw element of the `video_pictures` array. -/
structure VideoPictureData where
  id : Option Int
  picture : Option String
  nr : Option Int

/-- A raw video object as read by `parse_video`. -/
structure VideoData where
  id : Option Int
  width : Option Int
  height : Option Int
  url : Option String
  image : Option String
  duration : Option Int
  user : Option UserData
  video_files : Option (List VideoFileData)
  video_pictures : Option (List VideoPictureData)

/-- A raw video object with every key absent. -/
def VideoData.empty : VideoData :=
  ⟨none, none, none, none, none, none, none, none, none⟩

/-- utils.py `parse_video` (lines 43-85); the `for ... append` loops over
the two arrays are embedded as `List.map`. -/
def parse_video (video_data : VideoData) : Video :=
  let user_data := video_data.user.getD UserData.empty
  let user : User :=
    { id := user_data.id.getD 0
      name := user_data.name.getD ""
      url := user_data.url.getD "" }
  let video_files := (video_data.video_files.getD []).map fun file_data =>
    ({ id := file_data.id.getD 0
       quality := file_data.quality.getD ""
       file_type := file_data.file_type.getD ""
       width := file_data.width.getD 0
       height := file_data.height.getD 0
       fps := file_data.fps.getD 0
       link := file_data.link.getD "" } : VideoFile)
  let video_pictures := (video_data.video_pictures.getD []).map fun pic_data =>
    ({ id := pic_data.id.getD 0
       picture := pic_data.picture.getD ""
       nr := pic_data.nr.getD 0 } : VideoPicture)
  { id := video_data.id.getD 0
    width := video_data.width.getD 0
    height := video_data.height.getD 0
    url := video_data.url.getD ""
    image := video_data.image.getD ""
    duration := video_data.duration.getD 0
    user := user
    video_files := video_files
    video_pictures := video_pictures }

/-- A raw collection object as read by `parse_collection`. -/
structure CollectionData where
  id : Option String
  title : Option String
  description : Option String
  private_ : Option Bool
  media_count : Option Int
  photos_count : Option Int
  videos_count : Option Int

/-- A raw collection object with every key absent. -/
def CollectionData.empty : CollectionData :=
  ⟨none, none, none, none, none, none, none⟩

/-- utils.py `parse_collection` (lines 87-98); note the `private` key
defaults to `True`, unlike every other default in the file. -/
def parse_collection (collection_data : CollectionData) : Collection :=
  { id := collection_data.id.getD ""
    title := collection_data.title.getD ""
    description := collection_data.description.getD ""
    private_ := collection_data.private_.getD true
    media_count := collection_data.media_count.getD 0
    photos_count := collection_data.photos_count.getD 0
    videos_count := collection_data.videos_count.getD 0 }

/-! ## Collection media mapping (pypexel.py lines 451-454) -/

/-- One raw element of a collection-media response array.  The underlying
JSON dict carries the discriminator key `type` together with the union of
the keys read by `parse_photo` and by `parse_video`; `photoFields` and
`videoFields` are those two key-set views of the same dict. -/
structure MediaItem where
  type_ : Option String
  photoFields : PhotoData
  videoFields : VideoData

/-- A typed element of the heterogeneous list built by
`get_collection_media(as_objects=True)`. -/
inductive MediaObject where
  | photo (p : Photo)
  | video (v : Video)
  deriving DecidableEq

/-- The `as_objects` branch of `get_collection_media` (pypexel.py lines
452-454): map `parse_video` over the `type == 'Video'` elements, map
`parse_photo` over the `type == 'Photo'` elements, return videos then
photos. -/
def collectionMediaObjects (media : List MediaItem) : List MediaObject :=
  let videos := (media.filter fun m => m.type_.getD "" == "Video").map
    fun m => MediaObject.video (parse_video m.videoFields)
  let pictures := (media.filter fun m => m.type_.getD "" == "Photo").map
    fun m => MediaObject.photo (parse_photo m.photoFields)
  videos ++ pictures

/-! ## Download helper (pypexel.py lines 459-495) -/

/-- The set of qualities available among a video's files
(`set([v.quality for v in video.video_files])`, line 471). -/
def availableQualities (files : List VideoFile) : Finset String :=
  (files.map fun v => v.quality).toFinset

/-- Lines 471-478 of `download_video`: if the requested quality is not
available, raise a `ValueError` whose message lists the available set
(embedded as the error payload); otherwise keep the files of that quality,
sort them by width descending (Python's stable sort with `reverse=True`,
embedded as a stable insertion sort) and pick the first. -/
def selectVideoFile (files : List VideoFile) (quality : String) :
    Except (Finset String) VideoFile :=
  let available := availableQualities files
  if quality ∈ available then
    let quality_videos := files.filter fun v => v.quality == quality
    match quality_videos.insertionSort fun a b => b.width ≤ a.width with
    | [] => .error available
    | v :: _ => .ok v
  else .error available

/-- The whole of `download_video`: the body runs inside
`try ... except Exception`, so every raised error — including the
`ValueError` for an unavailable quality — is caught, printed, and turned
into a `None` return.  The streamed network fetch and file write are
external effects abstracted by `fetch`, which reports whether downloading
the selected file's link succeeded (any exception it raises is likewise
swallowed into `none`). -/
def download_video (fetch : String → Bool) (video : Video)
    (quality : String) : Option String :=
  match selectVideoFile video.video_files quality with
  | .error _ => none
  | .ok selected =>
      if fetch selected.link then
        some (toString video.id ++ "_" ++ quality ++ ".mp4")
      else none

/-- The first element of maximal `width` in a list of video files:
the element a stable descending-by-width sort puts first. -/
def firstMaxWidth (l : List VideoFile) : Option VideoFile :=
  l.foldr
    (fun x acc =>
      match acc with
      | none => some x
      | some b => if b.width ≤ x.width then some x else some b)
    none

/-! ## Concrete example data (from the specification's test vectors) -/

/-- An `hd` quality file of width 1280. -/
def hdFile1280 : VideoFile :=
  ⟨1, "hd", "video/mp4", 1280, 720, 30, "https://v/hd1280.mp4"⟩

/-- An `hd` quality file of width 1920. -/
def hdFile1920 : VideoFile :=
  ⟨2, "hd", "video/mp4", 1920, 1080, 30, "https://v/hd1920.mp4"⟩

/-- An `sd` quality file of width 640. -/
def sdFile640 : VideoFile :=
  ⟨3, "sd", "video/mp4", 640, 360, 30, "https://v/sd640.mp4"⟩

/-- The specification's download-helper example video, with files of
qualities hd:1280w, hd:1920w, sd:640w. -/
def exampleVideo : Video :=
  ⟨101, 1920, 1080, "https://v/101", "https://v/101.jpg", 12,
   ⟨7, "Jane", "https://u/7"⟩, [hdFile1280, hdFile1920, sdFile640], []⟩

/-- A collection-media element whose `type` discriminator is `Photo`. -/
def examplePhotoItem : MediaItem :=
  ⟨some "Photo", PhotoData.empty, VideoData.empty⟩

/-- A collection-media element whose `type` discriminator is `Video`. -/
def exampleVideoItem : MediaItem :=
  ⟨some "Video", PhotoData.empty, VideoData.empty⟩

/-- A collection-media element with an unrecognized `type` discriminator. -/
def exampleJunkItem : MediaItem :=
  ⟨some "Gif", PhotoData.empty, VideoData.empty⟩

/-! ## Raw JSON views of fully-populated entities (for round-trip facts) -/

/-- The raw `src` object carrying exactly the values of a `PhotoSRC`. -/
def SrcData.of (s : PhotoSRC) : SrcData :=
  ⟨some s.original, some s.large, some s.large2x, some s.medium,
   some s.small, some s.portrait, some s.landscape, some s.tiny⟩

/-- The raw `video_files` element carrying exactly the values of a
`VideoFile`. -/
def VideoFileData.of (f : VideoFile) : VideoFileData :=
  ⟨some f.id, some f.quality, some f.file_type, some f.width,
   some f.height, some f.fps, some f.link⟩

/-- The raw `video_pictures` element carrying exactly the values of a
`VideoPicture`. -/
def VideoPictureData.of (p : VideoPicture) : VideoPictureData :=
  ⟨some p.id, some p.picture, some p.nr⟩

/-! ## Helper lemmas -/

lemma mem_cleanParams (raw : List (String × Option ParamValue)) (k : String)
    (v : ParamValue) : (k, v) ∈ cleanParams raw ↔ (k, some v) ∈ raw := by
  constructor
  · intro h
    simp only [cleanParams, List.mem_filterMap, Option.map_eq_some',
      Prod.mk.injEq] at h
    obtain ⟨⟨k', ov⟩, hmem, w, hov, hk, hv⟩ := h
    subst hk; subst hv; subst hov
    exact hmem
  · intro h
    simp only [cleanParams, List.mem_filterMap]
    exact ⟨(k, some v), h, rfl⟩

lemma firstMaxWidth_cons (x : VideoFile) (xs : List VideoFile) :
    firstMaxWidth (x :: xs) =
      match firstMaxWidth xs with
      | none => some x
      | some b => if b.width ≤ x.width then some x else some b := rfl

lemma head_orderedInsert (x : VideoFile) (s : List VideoFile) :
    (List.orderedInsert (fun a b => b.width ≤ a.width) x s).head? =
      some (match s with
            | [] => x
            | b :: _ => if b.width ≤ x.width then x else b) := by
  cases s with
  | nil => rfl
  | cons b t =>
      by_cases h : b.width ≤ x.width
      · simp [List.orderedInsert, h]
      · simp [List.orderedInsert, h]

lemma head_insertionSort (l : List VideoFile) :
    (l.insertionSort fun a b => b.width ≤ a.width).head? = firstMaxWidth l := by
  induction l with
  | nil => rfl
  | cons x xs ih =>
      rw [List.insertionSort, head_orderedInsert]
      cases hs : List.insertionSort (fun a b => b.width ≤ a.width) xs with
      | nil =>
          have hxs : xs = [] := by
            have hlen := List.length_insertionSort
              (fun a b : VideoFile => b.width ≤ a.width) xs
            rw [hs] at hlen
            exact List.length_eq_zero.mp hlen.symm
          subst hxs; rfl
      | cons b t =>
          have hb : firstMaxWidth xs = some b := by
            rw [← ih, hs]; rfl
          rw [firstMaxWidth_cons, hb]
          by_cases h : b.width ≤ x.width <;> simp [h]

lemma firstMaxWidth_eq_none (l : List VideoFile) :
    firstMaxWidth l = none ↔ l = [] := by
  cases l with
  | nil => simp [firstMaxWidth]
  | cons x xs =>
      rw [firstMaxWidth_cons]
      cases h : firstMaxWidth xs with
      | none => simp
      | some b =>
          by_cases hw : b.width ≤ x.width <;> simp [hw]

lemma firstMaxWidth_spec (l : List VideoFile) (v : VideoFile)
    (h : firstMaxWidth l = some v) :
    v ∈ l ∧ (∀ u ∈ l, u.width ≤ v.width) ∧
      l.find? (fun u => decide (v.width ≤ u.width)) = some v := by
  induction l generalizing v with
  | nil => exact absurd h (by simp [firstMaxWidth])
  | cons x xs ih =>
      rw [firstMaxWidth_cons] at h
      cases hxs : firstMaxWidth xs with
      | none =>
          rw [hxs] at h
          have hx : x = v := Option.some.inj h
          have hnil : xs = [] := (firstMaxWidth_eq_none xs).mp hxs
          subst hnil; subst hx
          refine ⟨List.mem_singleton_self _, ?_, ?_⟩
          · intro u hu
            rw [List.mem_singleton] at hu
            exact le_of_eq (by rw [hu])
          · simp [List.find?_cons]
      | some b =>
          rw [hxs] at h
          have h' : (if b.width ≤ x.width then some x else some b) = some v := h
          obtain ⟨hbmem, hble, hbfind⟩ := ih b hxs
          by_cases hw : b.width ≤ x.width
          · rw [if_pos hw] at h'
            have hx : x = v := Option.some.inj h'
            subst hx
            refine ⟨List.mem_cons_self _ _, ?_, ?_⟩
            · intro u hu
              rcases List.mem_cons.mp hu with hu | hu
              · exact le_of_eq (by rw [hu])
              · exact le_trans (hble u hu) hw
            · simp [List.find?_cons]
          · rw [if_neg hw] at h'
            have hx : b = v := Option.some.inj h'
            subst hx
            push_neg at hw
            refine ⟨List.mem_cons_of_mem _ hbmem, ?_, ?_⟩
            · intro u hu
              rcases List.mem_cons.mp hu with hu | hu
              · exact le_of_lt (by rw [hu]; exact hw)
              · exact hble u hu
            · have hpx : decide (b.width ≤ x.width) = false := by
                simp only [decide_eq_false_iff_not]
                omega
              simp only [List.find?_cons, hpx]
              exact hbfind

lemma length_goodMedia (media : List MediaItem) :
    (media.filter fun m => m.type_.getD "" == "Video").length +
      (media.filter fun m => m.type_.getD "" == "Photo").length =
      (media.filter fun m =>
        (m.type_.getD "" == "Photo") || (m.type_.getD "" == "Video")).length := by
  induction media with
  | nil => rfl
  | cons x xs ih =>
      by_cases hv : x.type_.getD "" = "Video"
      · have hp : (x.type_.getD "" == "Photo") = false := by rw [hv]; decide
        have hv' : (x.type_.getD "" == "Video") = true := by rw [hv]; decide
        simp [List.filter_cons, hv', hp]
        omega
      · by_cases hp : x.type_.getD "" = "Photo"
        · have hp' : (x.type_.getD "" == "Photo") = true := by rw [hp]; decide
          have hv' : (x.type_.getD "" == "Video") = false := by
            rw [hp]; decide
          simp [List.filter_cons, hp', hv']
          omega
        · have hp' : (x.type_.getD "" == "Photo") = false :=
            beq_eq_false_iff_ne.mpr hp
          have hv' : (x.type_.getD "" == "Video") = false :=
            beq_eq_false_iff_ne.mpr hv
          simp [List.filter_cons, hp', hv']
          exact ih

lemma mem_availableQualities (files : List VideoFile) (q : String) :
    q ∈ availableQualities files ↔ ∃ f ∈ files, f.quality = q := by
  simp [availableQualities, List.mem_toFinset, List.mem_map]

/-! ## Claim theorems -/

/-- C1.  A search operation called with the empty query string fails with
InvalidArgument (the source's `ValueError("Query parameter is required")`)
whatever all the other parameters are, and the result does not depend on
the transport — equivalently, the validation error is raised before any
network call is made. -/
theorem empty_query_fails_before_network
    (orientation size color locale : Option String) (page per_page : Int)
    (transport : Request → TransportOutcome) :
    search_photos "" orientation size color locale page per_page transport =
      .error (.invalidArgument "Query parameter is required") ∧
    search_videos "" orientation size locale page per_page transport =
      .error (.invalidArgument "Query parameter is required") := by
  constructor <;> rfl

/-- C5.  Parsing a JSON object in which every key is absent yields the
all-default entity: 0 for integer fields, 0 for the stored float `fps`
(vacuously here: no file entries exist), empty string for string fields,
empty list for the two arrays, and — the one asymmetry — `private = true`
for a Collection.  The parse functions are total Lean functions, so they
cannot fail on missing keys. -/
theorem parse_defaults_on_all_missing :
    parse_photo PhotoData.empty =
      { id := 0, width := 0, height := 0, url := "", photographer := ""
        photographer_url := "", photographer_id := 0, avg_color := ""
        src := { original := "", large := "", large2x := "", medium := ""
                 small := "", portrait := "", landscape := "", tiny := "" }
        alt := "" } ∧
    parse_video VideoData.empty =
      { id := 0, width := 0, height := 0, url := "", image := ""
        duration := 0, user := { id := 0, name := "", url := "" }
        video_files := [], video_pictures := [] } ∧
    parse_collection CollectionData.empty =
      { id := "", title := "", description := "", private_ := true
        media_count := 0, photos_count := 0, videos_count := 0 } :=
  ⟨rfl, rfl, rfl⟩

/-- C6.  Mapping a fully-populated JSON object (every key present) into a
typed entity preserves every field value exactly, for photos, videos and
collections.  A fully-populated raw video object is written as the image
of target field values under the `…Data.of` constructors, which every
fully-populated object is. -/
theorem parse_preserves_fully_populated :
    (∀ (i w h pid : Int) (u ph phu ac al : String) (s : PhotoSRC),
      parse_photo
        { id := some i, width := some w, height := some h, url := some u
          photographer := some ph, photographer_url := some phu
          photographer_id := some pid, avg_color := some ac
          src := some (SrcData.of s), alt := some al } =
        { id := i, width := w, height := h, url := u, photographer := ph
          photographer_url := phu, photographer_id := pid, avg_color := ac
          src := s, alt := al }) ∧
    (∀ (i w h dur : Int) (u im : String) (usr : User)
        (fs : List VideoFile) (ps : List VideoPicture),
      parse_video
        { id := some i, width := some w, height := some h, url := some u
          image := some im, duration := some dur
          user := some ⟨some usr.id, some usr.name, some usr.url⟩
          video_files := some (fs.map VideoFileData.of)
          video_pictures := some (ps.map VideoPictureData.of) } =
        { id := i, width := w, height := h, url := u, image := im
          duration := dur, user := usr, video_files := fs
          video_pictures := ps }) ∧
    (∀ (cid ti de : String) (pr : Bool) (mc pc vc : Int),
      parse_collection
        { id := some cid, title := some ti, description := some de
          private_ := some pr, media_count := some mc
          photos_count := some pc, videos_count := some vc } =
        { id := cid, title := ti, description := de, private_ := pr
          media_count := mc, photos_count := pc, videos_count := vc }) := by
  refine ⟨?_, ?_, ?_⟩
  · intro i w h pid u ph phu ac al s
    cases s
    rfl
  · intro i w h dur u im usr fs ps
    cases usr
    show Video.mk _ _ _ _ _ _ _ _ _ = _
    simp only [parse_video, Option.getD_some, List.map_map, Video.mk.injEq,
      true_and, and_true]
    constructor
    · exact List.map_id'' (fun f => by cases f; rfl) fs
    · exact List.map_id'' (fun p => by cases p; rfl) ps
  · intro cid ti de pr mc pc vc
    rfl

/-- C4 (amended).  Transport-outcome classification is a total function
(`classifyOutcome` is a total Lean function over the whole outcome type):
429 maps to RateLimited, 403 to Unauthorized, and every other 4xx/5xx
status — the statuses for which the transport raises an HTTP error — to
HttpError carrying status code and body text.  A status that raises no
HTTP error (2xx, but also 1xx/3xx) yields the decoded JSON on success;
when the body is not valid JSON there is no distinct DecodeError kind:
the `JSONDecodeError` is caught by the same `except RequestException`
handler as a connection-level failure, so both map to TransportFailure
with the `"Request failed:"` message — a non-JSON body is classified
identically to a connection failure carrying the same exception text.
The produced error kinds are pairwise distinct constructors. -/
theorem classification_total_and_by_kind (status : Nat) (body : String)
    (json : Except String JsonVal) (j : JsonVal) (detail : String) :
    classifyOutcome (.response 429 body json) = .error .rateLimited ∧
    classifyOutcome (.response 403 body json) = .error .unauthorized ∧
    (400 ≤ status → status < 600 → status ≠ 429 → status ≠ 403 →
      classifyOutcome (.response status body json) =
        .error (.httpError status body)) ∧
    (¬ (400 ≤ status ∧ status < 600) →
      classifyOutcome (.response status body (.ok j)) = .ok j ∧
      classifyOutcome (.response status body (.error detail)) =
        .error (.transportFailure ("Request failed: " ++ detail)) ∧
      classifyOutcome (.response status body (.error detail)) =
        classifyOutcome (.connectionFailure detail)) ∧
    classifyOutcome (.connectionFailure detail) =
      .error (.transportFailure ("Request failed: " ++ detail)) ∧
    (∀ o : TransportOutcome, (∃ jv, classifyOutcome o = .ok jv) ∨
      ∃ e, classifyOutcome o = .error e) ∧
    ((PexError.rateLimited ≠ .unauthorized) ∧
      (PexError.rateLimited ≠ .httpError status body) ∧
      (PexError.rateLimited ≠ .transportFailure detail) ∧
      (PexError.unauthorized ≠ .httpError status body) ∧
      (PexError.unauthorized ≠ .transportFailure detail) ∧
      (PexError.httpError status body ≠ .transportFailure detail)) := by
  refine ⟨rfl, rfl, ?_, ?_, rfl, ?_, ?_⟩
  · intro h1 h2 h3 h4
    have hr : raisesForStatus status = true := by
      simp only [raisesForStatus, Bool.and_eq_true, decide_eq_true_eq]
      omega
    simp [classifyOutcome, hr, h3, h4]
  · intro h
    have hr : raisesForStatus status = false := by
      simp only [raisesForStatus, Bool.and_eq_true, decide_eq_true_eq,
        Bool.and_eq_false_iff, decide_eq_false_iff_not]
      omega
    refine ⟨?_, ?_, ?_⟩ <;> simp [classifyOutcome, hr]
  · intro o
    cases o with
    | connectionFailure m => exact Or.inr ⟨_, rfl⟩
    | response st bd js =>
        simp only [classifyOutcome]
        by_cases hr : raisesForStatus st = true
        · rw [if_pos hr]
          split_ifs <;> exact Or.inr ⟨_, rfl⟩
        · rw [if_neg hr]
          cases js with
          | error dt => exact Or.inr ⟨_, rfl⟩
          | ok jv => exact Or.inl ⟨_, rfl⟩
  · refine ⟨?_, ?_, ?_, ?_, ?_, ?_⟩ <;> intro h <;> cases h

/-- C4 witness: the amended classification facts applied at status 500
(HttpError), status 200 with a JSON body (success), and status 200 with a
non-JSON body, which is classified exactly like a connection failure
carrying the same exception text. -/
theorem classification_total_and_by_kind_witness :
    classifyOutcome (.response 500 "Internal Server Error" (.error "e")) =
      .error (.httpError 500 "Internal Server Error") ∧
    classifyOutcome (.response 200 "ok" (.ok (.str "ok"))) =
      .ok (.str "ok") ∧
    classifyOutcome (.response 200 "<html>"
        (.error "Expecting value: line 1 column 1 (char 0)")) =
      classifyOutcome
        (.connectionFailure "Expecting value: line 1 column 1 (char 0)") := by
  refine ⟨?_, ?_, ?_⟩
  · exact (classification_total_and_by_kind 500 "Internal Server Error"
      (.error "e") .null "m").2.2.1 (by omega) (by omega) (by omega)
      (by omega)
  · exact ((classification_total_and_by_kind 200 "ok"
      (.error "e") (.str "ok") "m").2.2.2.1 (by omega)).1
  · exact ((classification_total_and_by_kind 200 "<html>"
      (.error "e") .null
      "Expecting value: line 1 column 1 (char 0)").2.2.2.1 (by omega)).2.2

/-- C4 counterexample to the claim as stated: (i) HTTP 304 is not a 2xx
status, yet the code does not classify it as HttpError —
`raise_for_status` raises only for 4xx/5xx, so a 304 response with a JSON
body is returned as a success; (ii) a non-JSON body does not map to a
distinct DecodeError kind — under the pinned `requests>=2.32.4` the
decode exception is a `RequestException` caught at pypexel.py line 71
(the `except ValueError` clause at line 73 is dead), so it is classified
identically to a connection failure carrying the same exception text. -/
theorem non_2xx_not_always_httpError :
    (¬ (200 ≤ 304 ∧ 304 < 300) ∧
     classifyOutcome (.response 304 "Not Modified" (.ok .null)) =
       .ok .null) ∧
    classifyOutcome (.response 200 "<html>" (.error "Expecting value")) =
      classifyOutcome (.connectionFailure "Expecting value") :=
  ⟨⟨by omega, rfl⟩, rfl⟩

/-- C2.  Across all seven public list/search operations, validation fails
with InvalidArgument whenever `per_page > 80` or `page < 1` (whatever the
transport would answer), and when `per_page ≤ 80` and `page ≥ 1` — with
the other validated inputs fine — request building succeeds: the boundary
`per_page = 80` passes and there is no lower bound on `per_page`. -/
theorem paging_validation (query : String)
    (orientation size color locale : Option String)
    (mw mh mnd mxd : Option Int) (cid : String) (mt srt : Option String)
    (page per_page : Int) (transport : Request → TransportOutcome) :
    ((per_page > 80 ∨ page < 1) →
      isInvalidArgument
        (search_photos query orientation size color locale page per_page
          transport) ∧
      isInvalidArgument
        (search_videos query orientation size locale page per_page
          transport) ∧
      isInvalidArgument (get_curated_photos page per_page transport) ∧
      isInvalidArgument
        (get_popular_videos mw mh mnd mxd page per_page transport) ∧
      isInvalidArgument (get_featured_collections page per_page transport) ∧
      isInvalidArgument (get_my_collections page per_page transport) ∧
      isInvalidArgument
        (get_collection_media cid mt srt page per_page transport)) ∧
    (per_page ≤ 80 → 1 ≤ page →
      (query ≠ "" →
        (∃ r, search_photosRequest query orientation size color locale
          page per_page = .ok r) ∧
        (∃ r, search_videosRequest query orientation size locale
          page per_page = .ok r)) ∧
      (∃ r, get_curated_photosRequest page per_page = .ok r) ∧
      (∃ r, get_popular_videosRequest mw mh mnd mxd page per_page = .ok r) ∧
      (∃ r, get_featured_collectionsRequest page per_page = .ok r) ∧
      (∃ r, get_my_collectionsRequest page per_page = .ok r) ∧
      (mt = none ∨ mt = some "photos" ∨ mt = some "videos" →
        ∃ r, get_collection_mediaRequest cid mt srt page per_page = .ok r)) := by
  constructor
  · intro h
    refine ⟨?_, ?_, ?_, ?_, ?_, ?_, ?_⟩
    · unfold search_photos runOp search_photosRequest
      split_ifs <;> first | exact ⟨_, rfl⟩ | omega
    · unfold search_videos runOp search_videosRequest
      split_ifs <;> first | exact ⟨_, rfl⟩ | omega
    · unfold get_curated_photos runOp get_curated_photosRequest
      split_ifs <;> first | exact ⟨_, rfl⟩ | omega
    · unfold get_popular_videos runOp get_popular_videosRequest
      split_ifs <;> first | exact ⟨_, rfl⟩ | omega
    · unfold get_featured_collections runOp get_featured_collectionsRequest
      split_ifs <;> first | exact ⟨_, rfl⟩ | omega
    · unfold get_my_collections runOp get_my_collectionsRequest
      split_ifs <;> first | exact ⟨_, rfl⟩ | omega
    · unfold get_collection_media runOp get_collection_mediaRequest
      split_ifs <;> first | exact ⟨_, rfl⟩ | omega
  · intro hpp hpg
    refine ⟨?_, ?_, ?_, ?_, ?_, ?_⟩
    · intro hq
      constructor
      · unfold search_photosRequest
        split_ifs with h1 h2 h3
        · exact absurd h1 hq
        · omega
        · omega
        · exact ⟨_, rfl⟩
      · unfold search_videosRequest
        split_ifs with h1 h2 h3
        · exact absurd h1 hq
        · omega
        · omega
        · exact ⟨_, rfl⟩
    · unfold get_curated_photosRequest
      split_ifs <;> first | omega | exact ⟨_, rfl⟩
    · unfold get_popular_videosRequest
      split_ifs <;> first | omega | exact ⟨_, rfl⟩
    · unfold get_featured_collectionsRequest
      split_ifs <;> first | omega | exact ⟨_, rfl⟩
    · unfold get_my_collectionsRequest
      split_ifs <;> first | omega | exact ⟨_, rfl⟩
    · intro hmt
      unfold get_collection_mediaRequest
      split_ifs with h1 h2 h3
      · omega
      · omega
      · rcases hmt with rfl | rfl | rfl <;> exact absurd h3 (by decide)
      · exact ⟨_, rfl⟩

/-- C2 witness: `per_page = 81` makes `search_photos` fail with
InvalidArgument for every transport, and `per_page = 80`, `page = 1`
builds a `get_collection_media` request successfully. -/
theorem paging_validation_witness :
    isInvalidArgument
      (search_photos "cat" none none none none 1 81
        (fun _ => .connectionFailure "down")) ∧
    ∃ r, get_collection_mediaRequest "77" (some "photos") (some "asc")
      1 80 = .ok r := by
  constructor
  · exact ((paging_validation "cat" none none none none none none none none
      "77" (some "photos") (some "asc") 1 81
      (fun _ => .connectionFailure "down")).1 (Or.inl (by omega))).1
  · exact ((paging_validation "cat" none none none none none none none none
      "77" (some "photos") (some "asc") 1 80
      (fun _ => .connectionFailure "down")).2 (by omega) (by omega)).2.2.2.2.2
      (Or.inr (Or.inl rfl))

/-- C3.  The cleaned query-parameter mapping contains exactly the pairs
whose value is present: `(k, v)` is sent iff the raw mapping holds
`(k, some v)`, so an absent (`none`) optional parameter is omitted
entirely; instantiated for the request built by `search_photos`. -/
theorem query_params_exactly_present
    (raw : List (String × Option ParamValue)) (k : String) (v : ParamValue) :
    ((k, v) ∈ cleanParams raw ↔ (k, some v) ∈ raw) ∧
    (∀ (query : String) (orientation size color locale : Option String)
        (page per_page : Int) (r : Request),
      search_photosRequest query orientation size color locale page
        per_page = .ok r →
      ((k, v) ∈ r.params ↔ (k, some v) ∈
        [("query", some (.str query)),
         ("orientation", orientation.map .str),
         ("size", size.map .str),
         ("color", color.map .str),
         ("locale", locale.map .str),
         ("page", some (.int page)),
         ("per_page", some (.int per_page))])) := by
  refine ⟨mem_cleanParams raw k v, ?_⟩
  intro query orientation size color locale page per_page r hr
  unfold search_photosRequest at hr
  split_ifs at hr
  all_goals first
    | exact Except.noConfusion hr
    | (cases hr; exact mem_cleanParams _ k v)

/-- C3 witness: in a cleaned mapping, a present key-value pair is kept and
a key whose value is absent is dropped. -/
theorem query_params_exactly_present_witness :
    ("page", ParamValue.int 1) ∈ cleanParams
      [("query", some (.str "cat")), ("orientation", none),
       ("page", some (.int 1))] ∧
    ("orientation", ParamValue.str "x") ∉ cleanParams
      [("query", some (.str "cat")), ("orientation", none),
       ("page", some (.int 1))] := by
  constructor
  · exact (query_params_exactly_present
      [("query", some (.str "cat")), ("orientation", none),
       ("page", some (.int 1))] "page" (.int 1)).1.mpr (by decide)
  · intro hmem
    exact absurd ((query_params_exactly_present
      [("query", some (.str "cat")), ("orientation", none),
       ("page", some (.int 1))] "orientation" (.str "x")).1.mp hmem)
      (by decide)

/-- C8.  `get_collection_media` with a `media_type` outside
{`photos`, `videos`, absent} fails with InvalidArgument for every
transport (before any network call), and a value inside that set passes
the `media_type` validation: with the paging inputs valid, the request is
built. -/
theorem media_type_validation (cid : String) (mt srt : Option String)
    (page per_page : Int) (transport : Request → TransportOutcome) :
    (mt ∉ ([some "photos", some "videos", none] : List (Option String)) →
      isInvalidArgument
        (get_collection_media cid mt srt page per_page transport)) ∧
    (mt ∈ ([some "photos", some "videos", none] : List (Option String)) →
      per_page ≤ 80 → 1 ≤ page →
      ∃ r, get_collection_mediaRequest cid mt srt page per_page = .ok r) := by
  constructor
  · intro h
    unfold get_collection_media runOp get_collection_mediaRequest
    split_ifs with h1 h2 h3
    · exact ⟨_, rfl⟩
    · exact ⟨_, rfl⟩
    · exact ⟨_, rfl⟩
    · exfalso
      apply h
      have hc : ([some "photos", some "videos", none] :
          List (Option String)).contains mt = true := by
        cases hb : ([some "photos", some "videos", none] :
            List (Option String)).contains mt
        · rw [hb] at h3
          exact absurd rfl h3
        · rfl
      exact List.elem_iff.mp hc
  · intro hmem hpp hpg
    unfold get_collection_mediaRequest
    split_ifs with h1 h2 h3
    · omega
    · omega
    · exfalso
      simp only [List.mem_cons, List.not_mem_nil, or_false] at hmem
      rcases hmem with rfl | rfl | rfl <;> exact absurd h3 (by decide)
    · exact ⟨_, rfl⟩

/-- C8 witness: `media_type = "gifs"` fails with InvalidArgument for a
transport that would otherwise succeed, while `media_type` absent passes
validation with valid paging. -/
theorem media_type_validation_witness :
    isInvalidArgument
      (get_collection_media "9" (some "gifs") (some "asc") 1 15
        (fun _ => .response 200 "ok" (.ok .null))) ∧
    ∃ r, get_collection_mediaRequest "9" none (some "asc") 1 15 = .ok r := by
  constructor
  · exact (media_type_validation "9" (some "gifs") (some "asc") 1 15
      (fun _ => .response 200 "ok" (.ok .null))).1 (by decide)
  · exact (media_type_validation "9" none (some "asc") 1 15
      (fun _ => .response 200 "ok" (.ok .null))).2 (by decide) (by omega)
      (by omega)

/-- C7.  The typed collection-media result is the image of the
Video-typed elements followed by the image of the Photo-typed elements;
each partition is a filter of the input, hence a sublist preserving the
input's relative order; and on a two-element input
[Photo-typed, Video-typed] the result is [Video, Photo]. -/
theorem collection_media_videos_first (media : List MediaItem)
    (a b : MediaItem) :
    (collectionMediaObjects media =
      (media.filter fun m => m.type_.getD "" == "Video").map
        (fun m => MediaObject.video (parse_video m.videoFields)) ++
      (media.filter fun m => m.type_.getD "" == "Photo").map
        (fun m => MediaObject.photo (parse_photo m.photoFields))) ∧
    (media.filter fun m => m.type_.getD "" == "Video").Sublist media ∧
    (media.filter fun m => m.type_.getD "" == "Photo").Sublist media ∧
    (a.type_ = some "Photo" → b.type_ = some "Video" →
      collectionMediaObjects [a, b] =
        [MediaObject.video (parse_video b.videoFields),
         MediaObject.photo (parse_photo a.photoFields)]) := by
  refine ⟨rfl, List.filter_sublist media, List.filter_sublist media, ?_⟩
  intro ha hb
  have h1 : (("Photo" : String) == "Video") = false := by decide
  have h2 : (("Photo" : String) == "Photo") = true := by decide
  have h3 : (("Video" : String) == "Video") = true := by decide
  have h4 : (("Video" : String) == "Photo") = false := by decide
  simp [collectionMediaObjects, List.filter_cons, ha, hb, h1, h2, h3, h4]

/-- C7 witness: the spec's concrete two-element input, mapped at concrete
items whose discriminators are `Photo` and `Video`. -/
theorem collection_media_videos_first_witness :
    collectionMediaObjects [examplePhotoItem, exampleVideoItem] =
      [MediaObject.video (parse_video VideoData.empty),
       MediaObject.photo (parse_photo PhotoData.empty)] :=
  (collection_media_videos_first [] examplePhotoItem exampleVideoItem).2.2.2
    rfl rfl

/-- C10.  An element whose `type` discriminator is absent or neither
`Photo` nor `Video` contributes to neither partition: the result is
unchanged if those elements are removed, its length never exceeds the
input's, and the presence of one such element makes it strictly
shorter. -/
theorem collection_media_skips_unknown_types (media : List MediaItem) :
    (collectionMediaObjects media = collectionMediaObjects
      (media.filter fun m =>
        (m.type_.getD "" == "Photo") || (m.type_.getD "" == "Video"))) ∧
    (collectionMediaObjects media).length ≤ media.length ∧
    (∀ m ∈ media, m.type_.getD "" ≠ "Photo" → m.type_.getD "" ≠ "Video" →
      (collectionMediaObjects media).length < media.length) := by
  have hlen : (collectionMediaObjects media).length =
      (media.filter fun m =>
        (m.type_.getD "" == "Photo") || (m.type_.getD "" == "Video")).length := by
    simp only [collectionMediaObjects, List.length_append, List.length_map]
    exact length_goodMedia media
  have hfv : ((media.filter fun m =>
      (m.type_.getD "" == "Photo") || (m.type_.getD "" == "Video")).filter
        fun m => m.type_.getD "" == "Video") =
      media.filter fun m => m.type_.getD "" == "Video" := by
    rw [List.filter_filter]
    apply List.filter_congr
    intro m _
    cases hv : (m.type_.getD "" == "Video") <;> simp [hv]
  have hfp : ((media.filter fun m =>
      (m.type_.getD "" == "Photo") || (m.type_.getD "" == "Video")).filter
        fun m => m.type_.getD "" == "Photo") =
      media.filter fun m => m.type_.getD "" == "Photo" := by
    rw [List.filter_filter]
    apply List.filter_congr
    intro m _
    cases hp : (m.type_.getD "" == "Photo") <;> simp [hp]
  refine ⟨?_, ?_, ?_⟩
  · simp only [collectionMediaObjects, hfv, hfp]
  · rw [hlen]
    exact List.length_filter_le _ media
  · intro m hm hp hv
    rw [hlen]
    refine List.length_filter_lt_length_iff_exists.mpr ⟨m, hm, ?_⟩
    simp only [Bool.or_eq_true, beq_iff_eq, not_or]
    exact ⟨hp, hv⟩

/-- C10 witness: a three-element input with one `Gif`-typed element in the
middle yields a strictly shorter typed result. -/
theorem collection_media_skips_unknown_types_witness :
    (collectionMediaObjects
      [examplePhotoItem, exampleJunkItem, exampleVideoItem]).length < 3 :=
  (collection_media_skips_unknown_types
      [examplePhotoItem, exampleJunkItem, exampleVideoItem]).2.2
    exampleJunkItem
    (List.mem_cons_of_mem _ (List.mem_cons_self _ _))
    (by decide) (by decide)

/-- C9 (amended).  Lines 471-478 of the download helper raise
InvalidArgument carrying the set of actually-available qualities when no
VideoFile matches the requested quality — but the helper's catch-all
`except Exception` swallows that error, so `download_video` itself returns
`None`.  When matches exist, the selected file is a match of maximal
width, and among equal-width matches the first encountered (the head of a
stable sort by width descending). -/
theorem download_quality_selection (files : List VideoFile)
    (quality : String) (video : Video) (fetch : String → Bool) :
    (quality ∉ availableQualities files →
      selectVideoFile files quality = .error (availableQualities files)) ∧
    (video.video_files = files → quality ∉ availableQualities files →
      download_video fetch video quality = none) ∧
    (quality ∈ availableQualities files →
      ∃ v, selectVideoFile files quality = .ok v) ∧
    (∀ v, selectVideoFile files quality = .ok v →
      v ∈ files.filter (fun u => u.quality == quality) ∧
      (∀ u ∈ files.filter (fun u => u.quality == quality),
        u.width ≤ v.width) ∧
      (files.filter fun u => u.quality == quality).find?
        (fun u => decide (v.width ≤ u.width)) = some v) := by
  have hsel_err : quality ∉ availableQualities files →
      selectVideoFile files quality = .error (availableQualities files) := by
    intro h
    simp only [selectVideoFile]
    rw [if_neg h]
  refine ⟨hsel_err, ?_, ?_, ?_⟩
  · intro hv h
    simp only [download_video, hv, hsel_err h]
  · intro h
    obtain ⟨f, hf, hq⟩ := (mem_availableQualities files quality).mp h
    simp only [selectVideoFile]
    rw [if_pos h]
    have hne : files.filter (fun u => u.quality == quality) ≠ [] := by
      intro hnil
      have hmem : f ∈ files.filter (fun u => u.quality == quality) :=
        List.mem_filter.mpr ⟨hf, by simp [hq]⟩
      rw [hnil] at hmem
      exact List.not_mem_nil f hmem
    cases hs : (files.filter fun u => u.quality == quality).insertionSort
        (fun a b => b.width ≤ a.width) with
    | nil =>
        exfalso
        have hlen := List.length_insertionSort
          (fun a b : VideoFile => b.width ≤ a.width)
          (files.filter fun u => u.quality == quality)
        rw [hs] at hlen
        exact hne (List.length_eq_zero.mp hlen.symm)
    | cons v t => exact ⟨v, rfl⟩
  · intro v hv
    simp only [selectVideoFile] at hv
    by_cases hmem : quality ∈ availableQualities files
    · rw [if_pos hmem] at hv
      cases hs : (files.filter fun u => u.quality == quality).insertionSort
          (fun a b => b.width ≤ a.width) with
      | nil => rw [hs] at hv; exact Except.noConfusion hv
      | cons w t =>
          rw [hs] at hv
          have hw : w = v := by
            have hv' : Except.ok (ε := Finset String) w = Except.ok v := hv
            exact Except.ok.inj hv'
          subst hw
          have hhead : ((files.filter fun u =>
              u.quality == quality).insertionSort
                (fun a b => b.width ≤ a.width)).head? = some w := by
            rw [hs]; rfl
          rw [head_insertionSort] at hhead
          exact firstMaxWidth_spec _ _ hhead
    · rw [if_neg hmem] at hv
      exact Except.noConfusion hv

/-- C9 witness: on the spec's example files, requesting `hd` selects the
1920-wide file (maximal width, first among its ties), and requesting
`uhd` makes the selection step fail carrying exactly {hd, sd}. -/
theorem download_quality_selection_witness :
    (hdFile1920 ∈ ([hdFile1280, hdFile1920, sdFile640].filter
      fun u => u.quality == "hd") ∧
     (∀ u ∈ [hdFile1280, hdFile1920, sdFile640].filter
        (fun u => u.quality == "hd"), u.width ≤ hdFile1920.width) ∧
     ([hdFile1280, hdFile1920, sdFile640].filter
        fun u => u.quality == "hd").find?
          (fun u => decide (hdFile1920.width ≤ u.width)) = some hdFile1920) ∧
    selectVideoFile [hdFile1280, hdFile1920, sdFile640] "uhd" =
      .error ({"hd", "sd"} : Finset String) := by
  constructor
  · exact (download_quality_selection [hdFile1280, hdFile1920, sdFile640]
      "hd" exampleVideo (fun _ => true)).2.2.2 hdFile1920 (by rfl)
  · have h := (download_quality_selection [hdFile1280, hdFile1920, sdFile640]
      "uhd" exampleVideo (fun _ => true)).1 (by decide)
    rw [h]
    have hq : availableQualities [hdFile1280, hdFile1920, sdFile640] =
        ({"hd", "sd"} : Finset String) := by decide
    rw [hq]

/-- C9 counterexample to the claim as stated: the helper does not fail
with InvalidArgument on an unavailable quality — the `ValueError` raised
inside the `try` block is caught by `except Exception` and the caller
observes a plain `None`, indistinguishable from a network failure. -/
theorem download_unavailable_quality_swallowed :
    download_video (fun _ => true) exampleVideo "uhd" = none ∧
    download_video (fun _ => false) exampleVideo "uhd" = none := by
  constructor <;> rfl

end Pypexel
